import Mathlib

/-!
Verification of the resume-scanner ScoreEngine: a shallow embedding of
`src/services/resumeService.ts` (the pure scoring, keyword-extraction,
suggestion-generation and format-validation logic) and of the error
discrimination in `src/components/ResumeScanner.tsx`, together with
theorems settling the specification's claims about them.
-/

namespace ResumeScanner

/-- The suggestion severity enumeration from `resumeService.ts`
(`type Severity = 'error' | 'warning' | 'success'`). -/
inductive Severity where
  | error
  | warning
  | success
deriving DecidableEq, Repr

/-- The `APIResponse` interface of `resumeService.ts` (the spec's
`AnalysisInput`): four required boolean presence flags and five optional
string sequences.  An absent optional field is `none`. -/
structure APIResponse where
  hasContactInfo : Bool
  hasWorkExperience : Bool
  hasEducation : Bool
  hasSkills : Bool
  formatIssues : Option (List String)
  skills : Option (List String)
  industryTerms : Option (List String)
  actionVerbs : Option (List String)
  strengths : Option (List String)
deriving DecidableEq, Repr

/-- A suggestion record `{text, severity}` from `resumeService.ts`. -/
structure Suggestion where
  text : String
  severity : Severity
deriving DecidableEq, Repr

/-- The `format` component `{isValid, issues}` of an `AnalysisResult`. -/
structure FormatResult where
  isValid : Bool
  issues : List String
deriving DecidableEq, Repr

/-- The `AnalysisResult` interface of `resumeService.ts`. -/
structure AnalysisResult where
  score : Int
  keywords : List String
  suggestions : List Suggestion
  format : FormatResult
deriving DecidableEq, Repr

/-- `calculateATSScore` from `resumeService.ts`: start at 100, subtract
10/15/10/10 for each false presence flag; if `formatIssues?.length` is
truthy (present and non-empty) subtract `5 * length`; clamp with
`Math.max(0, Math.min(100, score))`. -/
def calculateATSScore (d : APIResponse) : Int :=
  let score : Int := 100
  let score := if !d.hasContactInfo then score - 10 else score
  let score := if !d.hasWorkExperience then score - 15 else score
  let score := if !d.hasEducation then score - 10 else score
  let score := if !d.hasSkills then score - 10 else score
  let score :=
    if (d.formatIssues.getD []).length ≠ 0 then
      score - ((d.formatIssues.getD []).length : Int) * 5
    else score
  max 0 (min 100 score)

/-- One step of inserting into the JS `Set` of `extractKeywords`: a JS
`Set<string>` keeps insertion order and ignores re-insertion of an
element already present. -/
def insertKeyword (acc : List String) (s : String) : List String :=
  if s ∈ acc then acc else acc ++ [s]

/-- `extractKeywords` from `resumeService.ts`: add every element of
`skills`, then `industryTerms`, then `actionVerbs` to a `Set`, then
return `Array.from` of it (insertion order). -/
def extractKeywords (d : APIResponse) : List String :=
  let keywords : List String := []
  let keywords := (d.skills.getD []).foldl insertKeyword keywords
  let keywords := (d.industryTerms.getD []).foldl insertKeyword keywords
  let keywords := (d.actionVerbs.getD []).foldl insertKeyword keywords
  keywords

/-- `suggestions.push(s)` on a JS array: append at the end. -/
def push (l : List Suggestion) (s : Suggestion) : List Suggestion :=
  l ++ [s]

/-- `generateSuggestions` from `resumeService.ts`: push one fixed
error-severity suggestion per false presence flag (contact, work
experience, education, skills, in that order), then one warning per
`formatIssues` entry, then one success per `strengths` entry. -/
def generateSuggestions (d : APIResponse) : List Suggestion :=
  let s : List Suggestion := []
  let s := if !d.hasContactInfo then
      push s ⟨"Add complete contact information including phone, email, and location",
        Severity.error⟩
    else s
  let s := if !d.hasWorkExperience then
      push s ⟨"Include detailed work experience with measurable achievements",
        Severity.error⟩
    else s
  let s := if !d.hasEducation then
      push s ⟨"Add your educational background", Severity.error⟩
    else s
  let s := if !d.hasSkills then
      push s ⟨"List relevant technical and soft skills", Severity.error⟩
    else s
  let s := (d.formatIssues.getD []).foldl
      (fun acc issue => push acc ⟨issue, Severity.warning⟩) s
  let s := (d.strengths.getD []).foldl
      (fun acc strength => push acc ⟨strength, Severity.success⟩) s
  s

/-- `validateFormat` from `resumeService.ts`:
`isValid = !formatIssues?.length` (true iff absent or empty),
`issues = formatIssues || []`. -/
def validateFormat (d : APIResponse) : FormatResult :=
  { isValid := (d.formatIssues.getD []).length == 0
    issues := d.formatIssues.getD [] }

/-- The successful return of `analyzeResume` in `resumeService.ts`: the
record composing the four pure operations on the same input. -/
def analyzeResumeCore (d : APIResponse) : AnalysisResult :=
  { score := calculateATSScore d
    keywords := extractKeywords d
    suggestions := generateSuggestions d
    format := validateFormat d }

/-- A JavaScript `Error` value as observed by a caller: its `name` and
`message` fields. -/
structure JSError where
  name : String
  message : String
deriving DecidableEq, Repr

/-- The `FileNotSelectedError` subclass of `ResumeScanner.tsx`: an
`Error` whose `name` is overridden to `"FileNotSelectedError"`. -/
def fileNotSelectedError (message : String) : JSError :=
  { name := "FileNotSelectedError", message := message }

/-- The error thrown by the `catch` block of `analyzeResume`:
`new Error('Failed to analyze resume')` (a plain `Error`, whose `name`
is `"Error"`). -/
def analysisFailedError : JSError :=
  { name := "Error", message := "Failed to analyze resume" }

/-- `analyzeResume` from `resumeService.ts`, with the outcome of the two
network calls (text extraction and analysis) passed in explicitly: on
success it returns the composed pure result, and any failure in the
`try` block is caught and rethrown as `analysisFailedError`. -/
def analyzeResume (network : Except JSError APIResponse) :
    Except JSError AnalysisResult :=
  match network with
  | Except.ok d => Except.ok (analyzeResumeCore d)
  | Except.error _ => Except.error analysisFailedError

/-- The `queryFn` of `ResumeScanner.tsx`: if no file is selected it
throws `FileNotSelectedError('No file selected')`, otherwise it runs
`analyzeResume` on the file (here: on the network outcome the file
leads to). -/
def queryFn (file : Option String) (network : Except JSError APIResponse) :
    Except JSError AnalysisResult :=
  match file with
  | none => Except.error (fileNotSelectedError "No file selected")
  | some _ => analyzeResume network

/-- Spec-side formula for `computeScore` (claim C1's description):
100 minus 10/15/10/10 per false flag minus 5 times the number of format
issues (0 if absent), clamped to [0, 100]. -/
def specScore (d : APIResponse) : Int :=
  max 0 (min 100 (100
    - (if d.hasContactInfo then 0 else 10)
    - (if d.hasWorkExperience then 0 else 15)
    - (if d.hasEducation then 0 else 10)
    - (if d.hasSkills then 0 else 10)
    - 5 * ((d.formatIssues.getD []).length : Int)))

/-- Fuel-indexed helper for `dedupFirstOccurrence`; the fuel only makes
the recursion structural and never runs out when it starts at the
list's length. -/
def dedupFOAux : Nat → List String → List String
  | _, [] => []
  | 0, _ :: _ => []
  | n + 1, x :: xs => x :: dedupFOAux n (xs.filter (fun y => y ≠ x))

/-- Spec-side de-duplication (claim C2's description): keep the first
occurrence of each string, drop every later duplicate, preserving
first-occurrence order. -/
def dedupFirstOccurrence (l : List String) : List String :=
  dedupFOAux l.length l

/-- Numeric rank of a severity, for stating the grouping invariant. -/
def rank : Severity → Nat
  | Severity.error => 0
  | Severity.warning => 1
  | Severity.success => 2

/-- The end-to-end example input of spec §8. -/
def exampleInput : APIResponse :=
  { hasContactInfo := true
    hasWorkExperience := false
    hasEducation := true
    hasSkills := true
    formatIssues := some ["Font too small"]
    skills := some ["Python"]
    industryTerms := none
    actionVerbs := none
    strengths := some ["Strong leadership"] }

/-! ## Helper lemmas -/

/-- `dedupFOAux` ignores the exact fuel as long as it covers the list's
length. -/
theorem dedupFOAux_congr :
    ∀ (n m : Nat) (l : List String), l.length ≤ n → l.length ≤ m →
      dedupFOAux n l = dedupFOAux m l
  | n, m, [], _, _ => by cases n <;> cases m <;> rfl
  | 0, _, _ :: _, hn, _ => by simp at hn
  | _ + 1, 0, _ :: _, _, hm => by simp at hm
  | n + 1, m + 1, x :: xs, hn, hm => by
    simp only [List.length_cons, Nat.add_le_add_iff_right] at hn hm
    simp only [dedupFOAux]
    rw [dedupFOAux_congr n m (xs.filter (fun y => y ≠ x))
      (le_trans (List.length_filter_le _ _) hn)
      (le_trans (List.length_filter_le _ _) hm)]

/-- Unfolding `dedupFirstOccurrence` at a cons cell. -/
theorem dedupFirstOccurrence_cons (x : String) (xs : List String) :
    dedupFirstOccurrence (x :: xs) =
      x :: dedupFirstOccurrence (xs.filter (fun y => y ≠ x)) := by
  simp only [dedupFirstOccurrence, List.length_cons, dedupFOAux]
  rw [dedupFOAux_congr xs.length (xs.filter (fun y => y ≠ x)).length
    (xs.filter (fun y => y ≠ x)) (List.length_filter_le _ _) le_rfl]

/-- Folding `insertKeyword` over a list keeps the accumulator's entries
and appends the not-yet-seen elements in first-occurrence order. -/
theorem foldl_insertKeyword (l : List String) (acc : List String) :
    l.foldl insertKeyword acc =
      acc ++ dedupFirstOccurrence (l.filter (fun y => y ∉ acc)) := by
  induction l generalizing acc with
  | nil => simp [dedupFirstOccurrence, dedupFOAux]
  | cons x xs ih =>
    by_cases hx : x ∈ acc
    · have h1 : insertKeyword acc x = acc := by simp [insertKeyword, hx]
      have h2 : (x :: xs).filter (fun y => y ∉ acc) =
          xs.filter (fun y => y ∉ acc) := by
        simp [List.filter_cons, hx]
      rw [List.foldl_cons, h1, ih, h2]
    · have h1 : insertKeyword acc x = acc ++ [x] := by simp [insertKeyword, hx]
      have h2 : (x :: xs).filter (fun y => y ∉ acc) =
          x :: xs.filter (fun y => y ∉ acc) := by
        simp [List.filter_cons, hx]
      have h3 : xs.filter (fun y => y ∉ acc ++ [x]) =
          (xs.filter (fun y => y ∉ acc)).filter (fun y => y ≠ x) := by
        rw [List.filter_filter]
        apply List.filter_congr
        intro y _
        by_cases e1 : y = x <;> by_cases e2 : y ∈ acc <;>
          simp [e1, e2]
      rw [List.foldl_cons, h1, ih, h2, dedupFirstOccurrence_cons, h3,
        List.append_assoc]
      rfl

/-- Folding warning pushes over a list appends the warning suggestions
in input order. -/
theorem foldl_push_warning (l : List String) (acc : List Suggestion) :
    l.foldl (fun a i => push a ⟨i, Severity.warning⟩) acc =
      acc ++ l.map (fun i => (⟨i, Severity.warning⟩ : Suggestion)) := by
  induction l generalizing acc with
  | nil => simp
  | cons x xs ih =>
    rw [List.foldl_cons, ih]
    simp [push]

/-- Folding success pushes over a list appends the success suggestions
in input order. -/
theorem foldl_push_success (l : List String) (acc : List Suggestion) :
    l.foldl (fun a i => push a ⟨i, Severity.success⟩) acc =
      acc ++ l.map (fun i => (⟨i, Severity.success⟩ : Suggestion)) := by
  induction l generalizing acc with
  | nil => simp
  | cons x xs ih =>
    rw [List.foldl_cons, ih]
    simp [push]

/-- `generateSuggestions` as an explicit concatenation of its six
blocks in emission order. -/
theorem generateSuggestions_eq (d : APIResponse) :
    generateSuggestions d =
      (if d.hasContactInfo then [] else
        [⟨"Add complete contact information including phone, email, and location",
          Severity.error⟩]) ++
      (if d.hasWorkExperience then [] else
        [⟨"Include detailed work experience with measurable achievements",
          Severity.error⟩]) ++
      (if d.hasEducation then [] else
        [⟨"Add your educational background", Severity.error⟩]) ++
      (if d.hasSkills then [] else
        [⟨"List relevant technical and soft skills", Severity.error⟩]) ++
      (d.formatIssues.getD []).map (fun i => (⟨i, Severity.warning⟩ : Suggestion)) ++
      (d.strengths.getD []).map (fun s => (⟨s, Severity.success⟩ : Suggestion)) := by
  rcases d with ⟨hci, hwe, hed, hsk, fi, sk, it, av, st⟩
  simp only [generateSuggestions]
  cases hci <;> cases hwe <;> cases hed <;> cases hsk <;>
    rw [foldl_push_success, foldl_push_warning] <;> simp [push]

/-- A list whose elements all carry the same severity is pairwise
rank-ordered. -/
theorem pairwise_rank_const (s : Severity) :
    ∀ l : List Suggestion, (∀ a ∈ l, a.severity = s) →
      l.Pairwise (fun a b => rank a.severity ≤ rank b.severity)
  | [], _ => List.Pairwise.nil
  | x :: xs, h => by
    refine List.Pairwise.cons ?_ (pairwise_rank_const s xs ?_)
    · intro b hb
      rw [h x (List.mem_cons_self x xs), h b (List.mem_cons_of_mem x hb)]
    · intro a ha
      exact h a (List.mem_cons_of_mem x ha)

/-- A concatenation of an all-error block, an all-warning block and an
all-success block is pairwise rank-ordered. -/
theorem pairwise_grouped (A B C : List Suggestion)
    (hA : ∀ a ∈ A, a.severity = Severity.error)
    (hB : ∀ b ∈ B, b.severity = Severity.warning)
    (hC : ∀ c ∈ C, c.severity = Severity.success) :
    (A ++ (B ++ C)).Pairwise (fun a b => rank a.severity ≤ rank b.severity) := by
  rw [List.pairwise_append]
  refine ⟨pairwise_rank_const Severity.error A hA, ?_, ?_⟩
  · rw [List.pairwise_append]
    refine ⟨pairwise_rank_const Severity.warning B hB,
      pairwise_rank_const Severity.success C hC, ?_⟩
    intro b hb c hc
    rw [hB b hb, hC c hc]
    decide
  · intro a ha b hb
    rw [hA a ha]
    exact Nat.zero_le _

/-- Membership in an `if`-guarded singleton block forces the element. -/
theorem eq_of_mem_ite_singleton {c : Bool} {a x : Suggestion}
    (h : a ∈ if c then ([] : List Suggestion) else [x]) : a = x := by
  cases c with
  | true => simp at h
  | false => simpa using h

/-! ## Claims -/

/-- C1: `computeScore` equals 100 minus 10 for missing contact info,
15 for missing work experience, 10 for missing education, 10 for missing
skills, and 5 per format issue (0 if absent), clamped to [0, 100]; with
all four flags false and two format issues it returns 45. -/
theorem claim_C1_score_formula :
    (∀ d : APIResponse, calculateATSScore d = specScore d) ∧
    calculateATSScore
      { hasContactInfo := false, hasWorkExperience := false,
        hasEducation := false, hasSkills := false,
        formatIssues := some ["a", "b"], skills := none,
        industryTerms := none, actionVerbs := none, strengths := none }
      = 45 := by
  constructor
  · intro d
    rcases d with ⟨hci, hwe, hed, hsk, fi, sk, it, av, st⟩
    simp only [calculateATSScore, specScore]
    generalize (fi.getD []).length = n
    cases hci <;> cases hwe <;> cases hed <;> cases hsk <;>
      by_cases h : n = 0 <;>
      simp only [h, Bool.not_true, Bool.not_false, if_true, if_false, ne_eq,
        not_true_eq_false, not_false_eq_true, Nat.cast_zero,
        Bool.true_eq_false, Bool.false_eq_true, ite_true, ite_false] <;>
      omega
  · decide

/-- C2: `extractKeywords` returns the concatenation of `skills`,
`industryTerms` and `actionVerbs` (in that order) de-duplicated by exact
string equality keeping first occurrences. -/
theorem claim_C2_keywords_dedup :
    ∀ d : APIResponse,
      extractKeywords d =
        dedupFirstOccurrence
          (d.skills.getD [] ++ d.industryTerms.getD [] ++ d.actionVerbs.getD []) := by
  intro d
  simp only [extractKeywords]
  rw [← List.foldl_append, ← List.foldl_append, foldl_insertKeyword]
  simp

/-- C3: `generateSuggestions` emits, in order, one fixed error
suggestion per false presence flag (contact, work experience, education,
skills), then one warning per format issue in input order, then one
success per strength in input order; its length is the number of false
flags plus the lengths of `formatIssues` and `strengths`. -/
theorem claim_C3_suggestions :
    ∀ d : APIResponse,
      generateSuggestions d =
        (if d.hasContactInfo then [] else
          [⟨"Add complete contact information including phone, email, and location",
            Severity.error⟩]) ++
        (if d.hasWorkExperience then [] else
          [⟨"Include detailed work experience with measurable achievements",
            Severity.error⟩]) ++
        (if d.hasEducation then [] else
          [⟨"Add your educational background", Severity.error⟩]) ++
        (if d.hasSkills then [] else
          [⟨"List relevant technical and soft skills", Severity.error⟩]) ++
        (d.formatIssues.getD []).map (fun i => (⟨i, Severity.warning⟩ : Suggestion)) ++
        (d.strengths.getD []).map (fun s => (⟨s, Severity.success⟩ : Suggestion)) ∧
      (generateSuggestions d).length =
        ((if d.hasContactInfo then 0 else 1) + (if d.hasWorkExperience then 0 else 1) +
          (if d.hasEducation then 0 else 1) + (if d.hasSkills then 0 else 1)) +
        (d.formatIssues.getD []).length + (d.strengths.getD []).length := by
  intro d
  refine ⟨generateSuggestions_eq d, ?_⟩
  rw [generateSuggestions_eq]
  rcases d with ⟨hci, hwe, hed, hsk, fi, sk, it, av, st⟩
  cases hci <;> cases hwe <;> cases hed <;> cases hsk <;> simp <;> omega

/-- C4: `validateFormat` returns `isValid = true` iff `formatIssues` is
empty or absent, and returns `formatIssues` verbatim as `issues` (empty
when absent). -/
theorem claim_C4_validate_format :
    ∀ d : APIResponse,
      ((validateFormat d).isValid = true ↔
        d.formatIssues = none ∨ d.formatIssues = some []) ∧
      (validateFormat d).issues =
        (match d.formatIssues with
          | none => []
          | some l => l) := by
  intro d
  rcases d with ⟨hci, hwe, hed, hsk, fi, sk, it, av, st⟩
  constructor
  · cases fi with
    | none => simp [validateFormat]
    | some l => cases l <;> simp [validateFormat]
  · cases fi <;> rfl

/-- C5: `computeScore` always lies in the closed interval [0, 100],
whatever the flags and however many format issues there are. -/
theorem claim_C5_score_bounds :
    ∀ d : APIResponse,
      0 ≤ calculateATSScore d ∧ calculateATSScore d ≤ 100 := by
  intro d
  simp only [calculateATSScore]
  split_ifs <;> constructor <;> omega

/-- C6 counterexample: on the spec's end-to-end example input the claim
asserts a score of 75, but `analyzeResume` computes 100 - 15 - 5 = 80. -/
theorem claim_C6_counterexample :
    (analyzeResumeCore exampleInput).score ≠ 75 ∧
    (analyzeResumeCore exampleInput).score = 80 := by
  constructor <;> decide

/-- C6 (amended): `analyze` is the record composing the four pure
operations and is deterministic; on the spec's end-to-end example input
it returns score 80 (not 75), keywords `["Python"]`, the three listed
suggestions in order, and format `{isValid := false,
issues := ["Font too small"]}`. -/
theorem claim_C6_analyze :
    (∀ d : APIResponse,
      analyzeResumeCore d =
        { score := calculateATSScore d
          keywords := extractKeywords d
          suggestions := generateSuggestions d
          format := validateFormat d }) ∧
    (∀ d e : APIResponse, d = e → analyzeResumeCore d = analyzeResumeCore e) ∧
    analyzeResumeCore exampleInput =
      { score := 80
        keywords := ["Python"]
        suggestions :=
          [⟨"Include detailed work experience with measurable achievements",
            Severity.error⟩,
           ⟨"Font too small", Severity.warning⟩,
           ⟨"Strong leadership", Severity.success⟩]
        format := { isValid := false, issues := ["Font too small"] } } := by
  refine ⟨fun d => rfl, fun d e h => by rw [h], ?_⟩
  decide

/-- C6 witness: the determinism conjunct applied at the example input. -/
theorem claim_C6_analyze_witness :
    analyzeResumeCore exampleInput = analyzeResumeCore exampleInput :=
  claim_C6_analyze.2.1 exampleInput exampleInput rfl

/-- C7: an absent `formatIssues` and an empty `formatIssues` yield the
same output from `analyze`, and from `computeScore`,
`generateSuggestions` and `validateFormat` individually. -/
theorem claim_C7_empty_eq_absent :
    ∀ d : APIResponse,
      analyzeResumeCore { d with formatIssues := some [] } =
        analyzeResumeCore { d with formatIssues := none } ∧
      calculateATSScore { d with formatIssues := some [] } =
        calculateATSScore { d with formatIssues := none } ∧
      generateSuggestions { d with formatIssues := some [] } =
        generateSuggestions { d with formatIssues := none } ∧
      validateFormat { d with formatIssues := some [] } =
        validateFormat { d with formatIssues := none } := by
  intro d
  exact ⟨rfl, rfl, rfl, rfl⟩

/-- C8: the no-file-selected condition is an error distinct from every
downstream failure: `queryFn` with no file produces the
`FileNotSelectedError`, any downstream failure produces the generic
analysis failure, and the two are distinguishable by their `name`. -/
theorem claim_C8_error_distinct :
    ∀ (f : String) (err : JSError) (net : Except JSError APIResponse),
      queryFn none net =
        Except.error (fileNotSelectedError "No file selected") ∧
      queryFn (some f) (Except.error err) = Except.error analysisFailedError ∧
      (fileNotSelectedError "No file selected").name ≠ analysisFailedError.name := by
  intro f err net
  refine ⟨rfl, rfl, ?_⟩
  decide

/-- C9: the output of `generateSuggestions` is severity-grouped: ranks
(error = 0, warning = 1, success = 2) are pairwise non-decreasing along
the list. -/
theorem claim_C9_severity_grouped :
    ∀ d : APIResponse,
      (generateSuggestions d).Pairwise
        (fun a b => rank a.severity ≤ rank b.severity) := by
  intro d
  rw [generateSuggestions_eq]
  have h := pairwise_grouped
    ((if d.hasContactInfo then [] else
      [⟨"Add complete contact information including phone, email, and location",
        Severity.error⟩]) ++
     (if d.hasWorkExperience then [] else
      [⟨"Include detailed work experience with measurable achievements",
        Severity.error⟩]) ++
     (if d.hasEducation then [] else
      [⟨"Add your educational background", Severity.error⟩]) ++
     (if d.hasSkills then [] else
      [⟨"List relevant technical and soft skills", Severity.error⟩]))
    ((d.formatIssues.getD []).map (fun i => (⟨i, Severity.warning⟩ : Suggestion)))
    ((d.strengths.getD []).map (fun s => (⟨s, Severity.success⟩ : Suggestion)))
    ?_ ?_ ?_
  · simpa [List.append_assoc] using h
  · intro a ha
    simp only [List.append_assoc, List.mem_append] at ha
    rcases ha with ha | ha | ha | ha <;>
      rw [eq_of_mem_ite_singleton ha]
  · intro b hb
    rcases List.mem_map.mp hb with ⟨i, _, hi⟩
    rw [← hi]
  · intro c hc
    rcases List.mem_map.mp hc with ⟨s, _, hs⟩
    rw [← hs]

/-- C10: `computeScore` returns exactly 100 iff all four presence flags
are true and `formatIssues` is empty or absent; a deducted score is
never clamped back up to 100. -/
theorem claim_C10_perfect_score :
    ∀ d : APIResponse,
      calculateATSScore d = 100 ↔
        (d.hasContactInfo = true ∧ d.hasWorkExperience = true ∧
         d.hasEducation = true ∧ d.hasSkills = true ∧
         (d.formatIssues = none ∨ d.formatIssues = some [])) := by
  intro d
  rcases d with ⟨hci, hwe, hed, hsk, fi, sk, it, av, st⟩
  simp only [calculateATSScore]
  have hfi : (fi = none ∨ fi = some []) ↔ (fi.getD []).length = 0 := by
    cases fi with
    | none => simp
    | some l => cases l <;> simp
  rw [hfi]
  generalize (fi.getD []).length = n
  cases hci <;> cases hwe <;> cases hed <;> cases hsk <;>
    by_cases h : n = 0 <;>
    simp only [h, Bool.not_true, Bool.not_false, if_true, if_false, ne_eq,
      not_true_eq_false, not_false_eq_true, Nat.cast_zero,
      Bool.true_eq_false, Bool.false_eq_true, ite_true, ite_false] <;>
    simp <;> omega

end ResumeScanner
